import Mathlib

/-!
Shallow embedding of the mutating write path of `src/server.js` from the
cemetery-api repository (Express + PostgreSQL backend for cemetery plot
record keeping).

The embedding models, faithfully to the JavaScript source:

* the JavaScript value distinctions the handlers rely on (truthiness of
  `cemetery_id`, `plot_code`, `coords`, the `x || d` and `x ?? null`
  operators, `String(x).trim()`, `toUpperCase()`),
* the SQL statements executed against the `plots`, `deceased_records`,
  `cemeteries` and `audit_logs` tables (`COALESCE` partial updates, the
  soft-delete filter `deleted_at IS NULL`, `ORDER BY plot_code LIMIT n`,
  the `COUNT(*)` capacity check),
* `writeAuditSafe` (audit insert wrapped in try/catch: a thrown failure is
  swallowed; we track the number of attempted audit inserts so that
  "attempted exactly once, never retried" is expressible),
* `sendMail` (no-op when the notification channel is unconfigured) and the
  HTML bodies it receives, built with the `esc` escaping function.

String primitives (`trim`, `toUpperCase`, text ordering) are re-implemented
over character lists because the kernel cannot reduce the built-in
byte-position based versions; they agree with the source semantics on the
ASCII data handled here.
-/

/-- ASCII double-quote character (") used by `esc` and `stringify`. -/
def quoteC : Char := Char.ofNat 34

/-- ASCII apostrophe character used by `esc` and `stringify`. -/
def aposC : Char := Char.ofNat 39

/-- JS `String.prototype.trim`: drop whitespace from both ends. -/
def strTrim (s : String) : String :=
  ⟨((s.data.dropWhile Char.isWhitespace).reverse.dropWhile Char.isWhitespace).reverse⟩

/-- JS `String.prototype.toUpperCase` (ASCII fragment). -/
def strUpper (s : String) : String := ⟨s.data.map Char.toUpper⟩

/-- Lexicographic order on character lists by code point (SQL `ORDER BY` on text). -/
def charListLe : List Char → List Char → Bool
  | [], _ => true
  | _ :: _, [] => false
  | a :: as, b :: bs =>
    if a = b then charListLe as bs else decide (a.toNat < b.toNat)

/-- Text comparison used to model `ORDER BY plot_code`. -/
def strLe (a b : String) : Bool := charListLe a.data b.data

/-- A JavaScript value, as far as the handlers distinguish values:
`undef` is an absent field, `null` an explicit null, and `obj` an
object/array carrying its JSON serialization. -/
inductive JsValue where
  | undef
  | null
  | bool (b : Bool)
  | num (n : Int)
  | str (s : String)
  | obj (json : String)
deriving DecidableEq

/-- JS truthiness. -/
def JsValue.truthy : JsValue → Bool
  | .undef => false
  | .null => false
  | .bool b => b
  | .num n => n != 0
  | .str s => s != ""
  | .obj _ => true

/-- Model of `JSON.stringify` on the values above (an `obj` carries its own JSON). -/
def JsValue.stringify : JsValue → String
  | .undef => "undefined"
  | .null => "null"
  | .bool b => if b then "true" else "false"
  | .num n => toString n
  | .str s => String.singleton quoteC ++ s ++ String.singleton quoteC
  | .obj j => j

/-- Truthiness of an optional numeric id (`!cemetery_id`: absent and 0 are falsy). -/
def natTruthy : Option Nat → Bool
  | some n => n != 0
  | none => false

/-- Truthiness of an optional string (`!plot_code`: absent and "" are falsy). -/
def strTruthy : Option String → Bool
  | some s => s != ""
  | none => false

/-- JS `v || null` on an optional string: falsy (absent or empty) becomes null. -/
def orNull (v : Option String) : Option String :=
  match v with
  | some s => if s = "" then none else some s
  | none => none

/-- JS `v || d` on an optional string: falsy (absent or empty) becomes the default. -/
def orDefault (v : Option String) (d : String) : String :=
  match v with
  | some s => if s = "" then d else s
  | none => d

/-- SQL `COALESCE(new, old)` for a nullable column. -/
def coalesceOpt {α : Type} (new old : Option α) : Option α :=
  match new with
  | some v => some v
  | none => old

/-- JS `v === null || v === undefined ? "" : String(v)` (the source's `nice`). -/
def nice (v : Option String) : String :=
  match v with
  | some s => s
  | none => ""

/-- A row of the `plots` table. Timestamps are abstract clock ticks. -/
structure Plot where
  id : Nat
  cemetery_id : Nat
  plot_code : String
  status : String
  owner_name : Option String
  gender : Option String
  payment_date : Option String
  row_num : Option Int
  col_num : Option Int
  coords : Option String
  deleted_at : Option Nat
  created_at : Nat
  updated_at : Nat
deriving DecidableEq

/-- A row of the `deceased_records` table. -/
structure Deceased where
  id : Nat
  plot_id : Nat
  deceased_full_name : String
  id_number : Option String
  date_of_birth : Option String
  date_of_death : Option String
  burial_type : String
  burial_date : Option String
  next_of_kin_name : Option String
  next_of_kin_relationship : Option String
  next_of_kin_phone : Option String
  next_of_kin_email : Option String
  next_of_kin_address : Option String
  undertaker_name : Option String
  undertaker_phone : Option String
  cause_of_death : Option String
  notes : Option String
deriving DecidableEq

/-- A row of the `audit_logs` table (`details` is modelled as key/value pairs). -/
structure Audit where
  action : String
  entity_type : String
  entity_id : Option Nat
  cemetery_id : Option Nat
  plot_code : Option String
  actor_username : Option String
  actor_role : Option String
  ip_address : Option String
  details : List (String × String)
deriving DecidableEq

/-- The database state plus the observable side channels: the audit rows,
the number of attempted audit inserts, and the e-mails handed to the
transport. `now` is the clock `NOW()` reads. -/
structure DB where
  cemeteries : List (Nat × String)
  plots : List Plot
  deceased : List Deceased
  audits : List Audit
  auditAttempts : Nat
  emails : List (String × String)
  nextPlotId : Nat
  nextDeceasedId : Nat
  now : Nat
deriving DecidableEq

/-- Per-request context: whether the audit insert would succeed (the failure
injected for the audit step), whether the notification channel is
configured (`emailEnabled`), the authenticated actor, and the configured
plots-per-cemetery limit (`PLOTS_PER_CEMETERY_LIMIT`, default 10). -/
structure Ctx where
  auditOk : Bool := true
  emailEnabled : Bool := true
  username : Option String := some "manager"
  role : Option String := some "manager"
  ip : Option String := none
  limit : Nat := 10
deriving DecidableEq

/-- An HTTP response body as the handlers produce it. -/
inductive Body where
  | err (msg : String)
  | plot (p : Plot)
  | plots (rows : List Plot)
  | deceasedRec (d : Deceased)
  | okTrue
deriving DecidableEq

/-- An HTTP response: status code and JSON body. -/
structure Resp where
  status : Nat
  body : Body
deriving DecidableEq

/-- The action-specific part of an audit entry; `writeAuditSafe` fills in
the actor fields from the request. -/
structure AuditReq where
  action : String
  entity_type : String := "plot"
  entity_id : Option Nat := none
  cemetery_id : Option Nat := none
  plot_code : Option String := none
  details : List (String × String) := []

/-- The `audit_logs` row a request inserts: action-specific fields plus
the actor identity and network origin taken from the request. -/
def auditEntry (ctx : Ctx) (a : AuditReq) : Audit :=
  { action := a.action, entity_type := a.entity_type
    entity_id := a.entity_id, cemetery_id := a.cemetery_id
    plot_code := a.plot_code, actor_username := ctx.username
    actor_role := ctx.role, ip_address := ctx.ip, details := a.details }

/-- Function `writeAuditSafe`: attempt the audit insert; a thrown failure
(`ctx.auditOk = false`) is caught and swallowed. Every call counts as one
attempt; there is no retry. -/
def writeAuditSafe (ctx : Ctx) (a : AuditReq) (db : DB) : DB :=
  let db' := { db with auditAttempts := db.auditAttempts + 1 }
  if ctx.auditOk then { db' with audits := db'.audits ++ [auditEntry ctx a] }
  else db'

/-- Function `sendMail`: hands (subject, html) to the transport only when the
notification channel is configured; failures are swallowed and never
reach the caller, so the model records at most the delivery attempt. -/
def sendMail (ctx : Ctx) (subject html : String) (db : DB) : DB :=
  if ctx.emailEnabled then { db with emails := db.emails ++ [(subject, html)] }
  else db

/-- Function `getCemeteryName`: name lookup with `|| ""`. -/
def getCemeteryName (cid : Nat) (db : DB) : String :=
  match db.cemeteries.find? (fun c => c.1 == cid) with
  | some c => c.2
  | none => ""

/-- The callback map of `esc`: entity for the five reserved markup
characters, with the source's `map[m] || m` fallback. -/
def escMap (c : Char) : String :=
  if c = '&' then "&amp;"
  else if c = '<' then "&lt;"
  else if c = '>' then "&gt;"
  else if c = quoteC then "&quot;"
  else if c = aposC then "&#039;"
  else String.singleton c

/-- The character class of the regex `[&<>"']` in `esc`. -/
def isReserved (c : Char) : Bool :=
  c = '&' || c = '<' || c = '>' || c = quoteC || c = aposC

/-- JS `String.replace` with a global single-character class: each matched
character is replaced by the callback's result, the rest kept. -/
def replaceChars : List Char → List Char
  | [] => []
  | c :: rest => (if isReserved c then (escMap c).data else [c]) ++ replaceChars rest

/-- The source's `esc`: escape the five reserved markup characters. -/
def esc (s : String) : String := ⟨replaceChars s.data⟩

/-- Render a `Bool` the way `JSON.stringify(!!x)` does. -/
def boolStr (b : Bool) : String := if b then "true" else "false"

/-- Render a nullable integer column the way `JSON.stringify` does. -/
def optIntStr : Option Int → String
  | some n => toString n
  | none => "null"

/-- The `JSON.stringify({status, owner_name, gender, row_num, col_num,
has_coords}, null, 2)` snapshot interpolated into the update e-mail. -/
def plotSnapshotJson (p : Plot) : String :=
  "\x7b status: " ++ p.status ++ ", owner_name: " ++ nice p.owner_name
    ++ ", gender: " ++ nice p.gender ++ ", row_num: " ++ optIntStr p.row_num
    ++ ", col_num: " ++ optIntStr p.col_num
    ++ ", has_coords: " ++ boolStr (p.coords != none) ++ " \x7d"

/-- Body of the plot-created notification; every dynamic value goes through `esc`. -/
def plotCreatedHtml (cemeteryName plotCode status byUser byRole : String) : String :=
  "<div style=\"font-family:Arial,sans-serif\"><h2>Plot Created</h2><p><b>Cemetery:</b> "
    ++ esc cemeteryName ++ "</p><p><b>Plot:</b> " ++ esc plotCode
    ++ "</p><p><b>Status:</b> " ++ esc status
    ++ "</p><hr/><p><b>By:</b> " ++ esc byUser ++ " (" ++ esc byRole ++ ")</p></div>"

/-- The same template over already-escaped text (used to state that the
builder escapes every dynamic value). -/
def plotCreatedShell (cemeteryName plotCode status byUser byRole : String) : String :=
  "<div style=\"font-family:Arial,sans-serif\"><h2>Plot Created</h2><p><b>Cemetery:</b> "
    ++ cemeteryName ++ "</p><p><b>Plot:</b> " ++ plotCode
    ++ "</p><p><b>Status:</b> " ++ status
    ++ "</p><hr/><p><b>By:</b> " ++ byUser ++ " (" ++ byRole ++ ")</p></div>"

/-- Body of the plot-updated notification. -/
def plotUpdatedHtml (cemeteryName plotRef byUser byRole beforeJson afterJson : String) : String :=
  "<div style=\"font-family:Arial,sans-serif\"><h2>Plot Updated</h2><p><b>Cemetery:</b> "
    ++ esc cemeteryName ++ "</p><p><b>Plot:</b> " ++ esc plotRef
    ++ "</p><p><b>User:</b> " ++ esc byUser ++ " (" ++ esc byRole
    ++ ")</p><hr/><h3>Before</h3><pre>" ++ esc beforeJson
    ++ "</pre><h3>After</h3><pre>" ++ esc afterJson ++ "</pre></div>"

/-- The plot-updated template over already-escaped text. -/
def plotUpdatedShell (cemeteryName plotRef byUser byRole beforeJson afterJson : String) : String :=
  "<div style=\"font-family:Arial,sans-serif\"><h2>Plot Updated</h2><p><b>Cemetery:</b> "
    ++ cemeteryName ++ "</p><p><b>Plot:</b> " ++ plotRef
    ++ "</p><p><b>User:</b> " ++ byUser ++ " (" ++ byRole
    ++ ")</p><hr/><h3>Before</h3><pre>" ++ beforeJson
    ++ "</pre><h3>After</h3><pre>" ++ afterJson ++ "</pre></div>"

/-- Body of the plot-deleted notification. -/
def plotDeletedHtml (cemeteryName plotRef byUser byRole : String) : String :=
  "<div style=\"font-family:Arial,sans-serif\"><h2>Plot Deleted</h2><p><b>Cemetery:</b> "
    ++ esc cemeteryName ++ "</p><p><b>Plot:</b> " ++ esc plotRef
    ++ "</p><p><b>Deleted by:</b> " ++ esc byUser ++ " (" ++ esc byRole ++ ")</p></div>"

/-- The plot-deleted template over already-escaped text. -/
def plotDeletedShell (cemeteryName plotRef byUser byRole : String) : String :=
  "<div style=\"font-family:Arial,sans-serif\"><h2>Plot Deleted</h2><p><b>Cemetery:</b> "
    ++ cemeteryName ++ "</p><p><b>Plot:</b> " ++ plotRef
    ++ "</p><p><b>Deleted by:</b> " ++ byUser ++ " (" ++ byRole ++ ")</p></div>"

/-- Body of the deceased-record-added notification. -/
def deceasedAddedHtml (name plotIdStr burialType burialDate byUser byRole : String) : String :=
  "<div style=\"font-family:Arial,sans-serif\"><h2>Deceased record added</h2><p><b>Name:</b> "
    ++ esc name ++ "</p><p><b>Plot ID:</b> " ++ esc plotIdStr
    ++ "</p><p><b>Type:</b> " ++ esc burialType
    ++ "</p><p><b>Burial date:</b> " ++ esc burialDate
    ++ "</p><hr/><p><b>By:</b> " ++ esc byUser ++ " (" ++ esc byRole ++ ")</p></div>"

/-- The deceased-record-added template over already-escaped text. -/
def deceasedAddedShell (name plotIdStr burialType burialDate byUser byRole : String) : String :=
  "<div style=\"font-family:Arial,sans-serif\"><h2>Deceased record added</h2><p><b>Name:</b> "
    ++ name ++ "</p><p><b>Plot ID:</b> " ++ plotIdStr
    ++ "</p><p><b>Type:</b> " ++ burialType
    ++ "</p><p><b>Burial date:</b> " ++ burialDate
    ++ "</p><hr/><p><b>By:</b> " ++ byUser ++ " (" ++ byRole ++ ")</p></div>"

/-- Request body of `POST /api/plots`. A field is `none` when absent or
supplied as JS `null`/`undefined`; `coords` keeps full JS value semantics
because the handler tests its truthiness. -/
structure CreatePlotReq where
  cemetery_id : Option Nat := none
  plot_code : Option String := none
  status : Option String := none
  owner_name : Option String := none
  gender : Option String := none
  payment_date : Option String := none
  row_num : Option Int := none
  col_num : Option Int := none
  coords : JsValue := .undef
deriving DecidableEq

/-- Count query `SELECT COUNT(*) FROM plots WHERE cemetery_id=$1 AND deleted_at IS NULL`. -/
def nonDeletedCount (cid : Nat) (db : DB) : Nat :=
  (db.plots.filter (fun p => p.cemetery_id == cid && p.deleted_at == none)).length

/-- The capacity-limit error message of `POST /api/plots`. -/
def capacityMsg (limit : Nat) : String :=
  "Plot limit reached (" ++ toString limit ++ " plots per cemetery)"

/-- The `plots` row inserted by `POST /api/plots`. -/
def newPlotRow (req : CreatePlotReq) (db : DB) : Plot :=
  { id := db.nextPlotId
    cemetery_id := req.cemetery_id.getD 0
    plot_code := strTrim (req.plot_code.getD "")
    status := orDefault req.status "Available"
    owner_name := orNull req.owner_name
    gender := orNull req.gender
    payment_date := orNull req.payment_date
    row_num := req.row_num
    col_num := req.col_num
    coords := if req.coords.truthy then some req.coords.stringify else none
    deleted_at := none
    created_at := db.now
    updated_at := db.now }

/-- The CREATE_PLOT audit request. -/
def createPlotAuditReq (p : Plot) : AuditReq :=
  { action := "CREATE_PLOT", entity_id := some p.id
    cemetery_id := some p.cemetery_id, plot_code := some p.plot_code
    details := [("status", p.status), ("owner_name", nice p.owner_name),
                ("gender", nice p.gender)] }

/-- Handler of `POST /api/plots`. -/
def createPlot (ctx : Ctx) (req : CreatePlotReq) (db : DB) : Resp × DB :=
  if !(natTruthy req.cemetery_id && strTruthy req.plot_code) then
    (⟨400, .err "cemetery_id and plot_code are required"⟩, db)
  else if nonDeletedCount (req.cemetery_id.getD 0) db ≥ ctx.limit then
    (⟨400, .err (capacityMsg ctx.limit)⟩, db)
  else
    let plot : Plot := newPlotRow req db
    let db1 := { db with plots := db.plots ++ [plot], nextPlotId := db.nextPlotId + 1 }
    let db2 := writeAuditSafe ctx (createPlotAuditReq plot) db1
    let cname := getCemeteryName plot.cemetery_id db2
    let db3 := sendMail ctx ("✅ Plot Created: " ++ plot.plot_code ++ " (" ++ cname ++ ")")
      (plotCreatedHtml cname plot.plot_code plot.status (nice ctx.username) (nice ctx.role)) db2
    (⟨201, .plot plot⟩, db3)

/-- Request body of `PATCH /api/plots/:id`. -/
structure UpdatePlotReq where
  owner_name : Option String := none
  gender : Option String := none
  status : Option String := none
  payment_date : Option String := none
  row_num : Option Int := none
  col_num : Option Int := none
  coords : JsValue := .undef
deriving DecidableEq

/-- The `SELECT ... FROM plots p JOIN cemeteries c ... WHERE p.id=$1 AND
p.deleted_at IS NULL` lookup used by the update and soft-delete handlers
(the inner join requires the owning cemetery row to exist). -/
def findActivePlot (id : Nat) (db : DB) : Option Plot :=
  db.plots.find? (fun p =>
    p.id == id && p.deleted_at == none
      && (db.cemeteries.find? (fun c => c.1 == p.cemetery_id)).isSome)

/-- The `UPDATE plots SET f = COALESCE($i, f), ..., updated_at = NOW()`
row transformation of `PATCH /api/plots/:id`. -/
def applyPlotUpdate (req : UpdatePlotReq) (now : Nat) (p : Plot) : Plot :=
  { p with
    owner_name := coalesceOpt req.owner_name p.owner_name
    gender := coalesceOpt req.gender p.gender
    status := match req.status with
      | some s => s
      | none => p.status
    payment_date := coalesceOpt req.payment_date p.payment_date
    row_num := coalesceOpt req.row_num p.row_num
    col_num := coalesceOpt req.col_num p.col_num
    coords := coalesceOpt (if req.coords.truthy then some req.coords.stringify else none) p.coords
    updated_at := now }

/-- The before/after snapshot stored in the UPDATE_PLOT audit details. -/
def plotUpdatedDetails (before after : Plot) : List (String × String) :=
  [("before_status", before.status), ("before_owner_name", nice before.owner_name),
   ("before_gender", nice before.gender), ("before_has_coords", boolStr (before.coords != none)),
   ("after_status", after.status), ("after_owner_name", nice after.owner_name),
   ("after_gender", nice after.gender), ("after_has_coords", boolStr (after.coords != none))]

/-- The UPDATE_PLOT audit request. -/
def updatePlotAuditReq (before after : Plot) : AuditReq :=
  { action := "UPDATE_PLOT", entity_id := some after.id
    cemetery_id := some after.cemetery_id, plot_code := some after.plot_code
    details := plotUpdatedDetails before after }

/-- Handler of `PATCH /api/plots/:id`. -/
def updatePlot (ctx : Ctx) (id : Nat) (req : UpdatePlotReq) (db : DB) : Resp × DB :=
  match findActivePlot id db with
  | none => (⟨404, .err "Plot not found"⟩, db)
  | some before =>
    let after := applyPlotUpdate req db.now before
    let db1 := { db with plots :=
      (db.plots.map (fun q => if q.id == id then applyPlotUpdate req db.now q else q)) }
    let db2 := writeAuditSafe ctx (updatePlotAuditReq before after) db1
    let cname := getCemeteryName before.cemetery_id db
    let db3 := sendMail ctx ("✏️ Plot Updated: " ++ after.plot_code ++ " (" ++ cname ++ ")")
      (plotUpdatedHtml cname (orDefault (some after.plot_code) (toString after.id))
        (nice ctx.username) (nice ctx.role)
        (plotSnapshotJson before) (plotSnapshotJson after)) db2
    (⟨200, .plot after⟩, db3)

/-- The DELETE_PLOT audit request. -/
def deletePlotAuditReq (p : Plot) : AuditReq :=
  { action := "DELETE_PLOT", entity_id := some p.id
    cemetery_id := some p.cemetery_id, plot_code := some p.plot_code
    details := [("status", p.status), ("owner_name", nice p.owner_name),
                ("gender", nice p.gender)] }

/-- Handler of `DELETE /api/plots/:id` (soft delete). -/
def deletePlot (ctx : Ctx) (id : Nat) (db : DB) : Resp × DB :=
  match findActivePlot id db with
  | none => (⟨404, .err "Plot not found or already deleted"⟩, db)
  | some plot =>
    let db1 := { db with plots :=
      (db.plots.map (fun q => if q.id == id
        then { q with deleted_at := some db.now, updated_at := db.now } else q)) }
    let db2 := writeAuditSafe ctx (deletePlotAuditReq plot) db1
    let cname := getCemeteryName plot.cemetery_id db
    let db3 := sendMail ctx ("🗑️ Plot Deleted: " ++ plot.plot_code ++ " (" ++ cname ++ ")")
      (plotDeletedHtml cname (orDefault (some plot.plot_code) (toString plot.id))
        (nice ctx.username) (nice ctx.role)) db2
    (⟨200, .okTrue⟩, db3)

/-- Relation on rows modelling `ORDER BY plot_code`. -/
def plotCodeLe (a b : Plot) : Prop := strLe a.plot_code b.plot_code = true

instance : DecidableRel plotCodeLe := fun _ _ => instDecidableEqBool _ _

/-- Handler of `GET /api/cemeteries/:id/plots`: excludes soft-deleted rows
unless `include_deleted=true`, orders by plot code, caps the result at the
configured limit. Read-only, so only the response is returned. -/
def listPlots (ctx : Ctx) (cid : Nat) (includeDeleted : Bool) (db : DB) : Resp :=
  let rows := db.plots.filter (fun p =>
    p.cemetery_id == cid && (includeDeleted || p.deleted_at == none))
  ⟨200, .plots ((List.insertionSort plotCodeLe rows).take ctx.limit)⟩

/-- The rows of a listing response. -/
def listedRows (r : Resp) : List Plot :=
  match r.body with
  | .plots rows => rows
  | _ => []

/-- Request body shared by `POST /api/plots/:plotId/deceased` and
`PATCH /api/deceased/:id` (the same fifteen fields). A field is `none`
when absent or supplied as JS `null`/`undefined`. -/
structure DeceasedReq where
  deceased_full_name : Option String := none
  id_number : Option String := none
  date_of_birth : Option String := none
  date_of_death : Option String := none
  burial_type : Option String := none
  burial_date : Option String := none
  next_of_kin_name : Option String := none
  next_of_kin_relationship : Option String := none
  next_of_kin_phone : Option String := none
  next_of_kin_email : Option String := none
  next_of_kin_address : Option String := none
  undertaker_name : Option String := none
  undertaker_phone : Option String := none
  cause_of_death : Option String := none
  notes : Option String := none
deriving DecidableEq

/-- The `deceased_records` row inserted by `POST /api/plots/:plotId/deceased`. -/
def newDeceasedRow (plotId : Nat) (req : DeceasedReq) (db : DB) : Deceased :=
  { id := db.nextDeceasedId
    plot_id := plotId
    deceased_full_name := strTrim (req.deceased_full_name.getD "")
    id_number := orNull req.id_number
    date_of_birth := orNull req.date_of_birth
    date_of_death := orNull req.date_of_death
    burial_type := strUpper (orDefault req.burial_type "BURIAL")
    burial_date := orNull req.burial_date
    next_of_kin_name := orNull req.next_of_kin_name
    next_of_kin_relationship := orNull req.next_of_kin_relationship
    next_of_kin_phone := orNull req.next_of_kin_phone
    next_of_kin_email := orNull req.next_of_kin_email
    next_of_kin_address := orNull req.next_of_kin_address
    undertaker_name := orNull req.undertaker_name
    undertaker_phone := orNull req.undertaker_phone
    cause_of_death := orNull req.cause_of_death
    notes := orNull req.notes }

/-- The CREATE_DECEASED audit request. -/
def createDeceasedAuditReq (plotId : Nat) (d : Deceased) : AuditReq :=
  { action := "CREATE_DECEASED", entity_type := "deceased", entity_id := some d.id
    details := [("plot_id", toString plotId),
                ("deceased_full_name", d.deceased_full_name),
                ("burial_type", d.burial_type)] }

/-- Handler of `POST /api/plots/:plotId/deceased`. -/
def createDeceased (ctx : Ctx) (plotId : Nat) (req : DeceasedReq) (db : DB) : Resp × DB :=
  if !(strTruthy req.deceased_full_name)
      || (strTrim (req.deceased_full_name.getD "")).length < 2 then
    (⟨400, .err "deceased_full_name is required"⟩, db)
  else
    let d : Deceased := newDeceasedRow plotId req db
    let db1 := { db with deceased := db.deceased ++ [d], nextDeceasedId := db.nextDeceasedId + 1 }
    let db2 := writeAuditSafe ctx (createDeceasedAuditReq plotId d) db1
    let db3 := sendMail ctx ("⚰️ Deceased record added: " ++ d.deceased_full_name)
      (deceasedAddedHtml d.deceased_full_name (toString plotId) d.burial_type
        (nice d.burial_date) (nice ctx.username) (nice ctx.role)) db2
    (⟨201, .deceasedRec d⟩, db3)

/-- The parameter the update handler binds for one field:
`req.body[f] === "" ? null : req.body[f] ?? null`. -/
def sqlParam (v : Option String) : Option String :=
  match v with
  | some s => if s = "" then none else some s
  | none => none

/-- The `UPDATE deceased_records SET f = COALESCE($i, f), ...` row
transformation of `PATCH /api/deceased/:id`. -/
def applyDeceasedUpdate (req : DeceasedReq) (d : Deceased) : Deceased :=
  { d with
    deceased_full_name := match sqlParam req.deceased_full_name with
      | some s => s
      | none => d.deceased_full_name
    id_number := coalesceOpt (sqlParam req.id_number) d.id_number
    date_of_birth := coalesceOpt (sqlParam req.date_of_birth) d.date_of_birth
    date_of_death := coalesceOpt (sqlParam req.date_of_death) d.date_of_death
    burial_type := match sqlParam req.burial_type with
      | some s => s
      | none => d.burial_type
    burial_date := coalesceOpt (sqlParam req.burial_date) d.burial_date
    next_of_kin_name := coalesceOpt (sqlParam req.next_of_kin_name) d.next_of_kin_name
    next_of_kin_relationship :=
      coalesceOpt (sqlParam req.next_of_kin_relationship) d.next_of_kin_relationship
    next_of_kin_phone := coalesceOpt (sqlParam req.next_of_kin_phone) d.next_of_kin_phone
    next_of_kin_email := coalesceOpt (sqlParam req.next_of_kin_email) d.next_of_kin_email
    next_of_kin_address := coalesceOpt (sqlParam req.next_of_kin_address) d.next_of_kin_address
    undertaker_name := coalesceOpt (sqlParam req.undertaker_name) d.undertaker_name
    undertaker_phone := coalesceOpt (sqlParam req.undertaker_phone) d.undertaker_phone
    cause_of_death := coalesceOpt (sqlParam req.cause_of_death) d.cause_of_death
    notes := coalesceOpt (sqlParam req.notes) d.notes }

/-- Model of `Object.keys(req.body)` as recorded in the UPDATE_DECEASED audit details
(the model keeps the supplied field names). -/
def suppliedFields (req : DeceasedReq) : List String :=
  (if req.deceased_full_name != none then ["deceased_full_name"] else [])
    ++ (if req.id_number != none then ["id_number"] else [])
    ++ (if req.date_of_birth != none then ["date_of_birth"] else [])
    ++ (if req.date_of_death != none then ["date_of_death"] else [])
    ++ (if req.burial_type != none then ["burial_type"] else [])
    ++ (if req.burial_date != none then ["burial_date"] else [])
    ++ (if req.next_of_kin_name != none then ["next_of_kin_name"] else [])
    ++ (if req.next_of_kin_relationship != none then ["next_of_kin_relationship"] else [])
    ++ (if req.next_of_kin_phone != none then ["next_of_kin_phone"] else [])
    ++ (if req.next_of_kin_email != none then ["next_of_kin_email"] else [])
    ++ (if req.next_of_kin_address != none then ["next_of_kin_address"] else [])
    ++ (if req.undertaker_name != none then ["undertaker_name"] else [])
    ++ (if req.undertaker_phone != none then ["undertaker_phone"] else [])
    ++ (if req.cause_of_death != none then ["cause_of_death"] else [])
    ++ (if req.notes != none then ["notes"] else [])

/-- The UPDATE_DECEASED audit request. -/
def updateDeceasedAuditReq (req : DeceasedReq) (d : Deceased) : AuditReq :=
  { action := "UPDATE_DECEASED", entity_type := "deceased", entity_id := some d.id
    details := [("updated_fields", String.intercalate "," (suppliedFields req))] }

/-- Handler of `PATCH /api/deceased/:id`. -/
def updateDeceased (ctx : Ctx) (id : Nat) (req : DeceasedReq) (db : DB) : Resp × DB :=
  match db.deceased.find? (fun d => d.id == id) with
  | none => (⟨404, .err "Record not found"⟩, db)
  | some d0 =>
    let d1 := applyDeceasedUpdate req d0
    let db1 := { db with deceased :=
      (db.deceased.map (fun q => if q.id == id then applyDeceasedUpdate req q else q)) }
    let db2 := writeAuditSafe ctx (updateDeceasedAuditReq req d1) db1
    (⟨200, .deceasedRec d1⟩, db2)


/-!
Concrete fixtures used by witnesses and counterexamples.
-/

/-- A sample cemetery database with one cemetery and nothing else. -/
def baseDB : DB :=
  { cemeteries := [(1, "Greenwood")], plots := [], deceased := [], audits := []
    auditAttempts := 0, emails := [], nextPlotId := 1, nextDeceasedId := 1, now := 5 }

/-- A sample non-deleted plot in cemetery 1. -/
def basePlot : Plot :=
  { id := 1, cemetery_id := 1, plot_code := "A-01", status := "Available"
    owner_name := none, gender := none, payment_date := none, row_num := none
    col_num := none, coords := none, deleted_at := none, created_at := 0, updated_at := 0 }

/-- A sample deceased record attached to plot 1, with non-null notes. -/
def baseDeceased : Deceased :=
  { id := 1, plot_id := 1, deceased_full_name := "John Doe", id_number := none
    date_of_birth := none, date_of_death := none, burial_type := "BURIAL"
    burial_date := none, next_of_kin_name := none, next_of_kin_relationship := none
    next_of_kin_phone := none, next_of_kin_email := none, next_of_kin_address := none
    undertaker_name := none, undertaker_phone := none, cause_of_death := none
    notes := some "keep" }

/-- A database holding one plot in cemetery 1. -/
def oneplotDB : DB := { baseDB with plots := [basePlot], nextPlotId := 2 }

/-- A database holding one deceased record. -/
def deceasedDB : DB := { baseDB with deceased := [baseDeceased], nextDeceasedId := 2 }

/-- The row inserted for a whitespace-only plot code: accepted, stored trimmed to "". -/
def wsPlot : Plot :=
  { id := 1, cemetery_id := 1, plot_code := "", status := "Available"
    owner_name := none, gender := none, payment_date := none, row_num := none
    col_num := none, coords := none, deleted_at := none, created_at := 5, updated_at := 5 }

/-- A non-deleted plot of cemetery 1 with a given id and code. -/
def cemPlot (i : Nat) (code : String) : Plot :=
  { basePlot with id := i, plot_code := code }

/-- A soft-deleted plot of cemetery 1 whose code sorts after ten others. -/
def deletedPlot11 : Plot :=
  { basePlot with id := 11, plot_code := "Z99", deleted_at := some 3 }

/-- A cemetery already holding the default limit of ten non-deleted plots
plus one soft-deleted plot whose code sorts last. -/
def elevenPlotsDB : DB :=
  { baseDB with
    plots := [cemPlot 1 "A01", cemPlot 2 "A02", cemPlot 3 "A03", cemPlot 4 "A04",
              cemPlot 5 "A05", cemPlot 6 "A06", cemPlot 7 "A07", cemPlot 8 "A08",
              cemPlot 9 "A09", cemPlot 10 "A10", deletedPlot11]
    nextPlotId := 12 }

/-- A create-deceased request with a valid name and the burial type
supplied as an explicit empty string. -/
def emptyBurialReq : DeceasedReq :=
  { deceased_full_name := some "John Doe", burial_type := some "" }

/-- A create-deceased request with an untrimmed valid name and a
lowercase burial type. -/
def janeReq : DeceasedReq :=
  { deceased_full_name := some " Jane Roe ", burial_type := some "cremation" }

/-- Per-character escape map as the spec words it: each of the five
reserved markup characters becomes its entity, any other character is
left unchanged. -/
def escSpec (c : Char) : String :=
  if c = '&' then "&amp;"
  else if c = '<' then "&lt;"
  else if c = '>' then "&gt;"
  else if c = quoteC then "&quot;"
  else if c = aposC then "&#039;"
  else String.singleton c

/-!
Helper lemmas: state projections of the audit and notification steps, and
branch characterizations of the five handlers.
-/

@[simp] theorem sendMail_cemeteries (ctx : Ctx) (s h : String) (db : DB) :
    (sendMail ctx s h db).cemeteries = db.cemeteries := by
  unfold sendMail; split <;> rfl

@[simp] theorem sendMail_plots (ctx : Ctx) (s h : String) (db : DB) :
    (sendMail ctx s h db).plots = db.plots := by
  unfold sendMail; split <;> rfl

@[simp] theorem sendMail_deceased (ctx : Ctx) (s h : String) (db : DB) :
    (sendMail ctx s h db).deceased = db.deceased := by
  unfold sendMail; split <;> rfl

@[simp] theorem sendMail_audits (ctx : Ctx) (s h : String) (db : DB) :
    (sendMail ctx s h db).audits = db.audits := by
  unfold sendMail; split <;> rfl

@[simp] theorem sendMail_auditAttempts (ctx : Ctx) (s h : String) (db : DB) :
    (sendMail ctx s h db).auditAttempts = db.auditAttempts := by
  unfold sendMail; split <;> rfl

@[simp] theorem sendMail_now (ctx : Ctx) (s h : String) (db : DB) :
    (sendMail ctx s h db).now = db.now := by
  unfold sendMail; split <;> rfl

@[simp] theorem writeAuditSafe_cemeteries (ctx : Ctx) (a : AuditReq) (db : DB) :
    (writeAuditSafe ctx a db).cemeteries = db.cemeteries := by
  unfold writeAuditSafe; split <;> rfl

@[simp] theorem writeAuditSafe_plots (ctx : Ctx) (a : AuditReq) (db : DB) :
    (writeAuditSafe ctx a db).plots = db.plots := by
  unfold writeAuditSafe; split <;> rfl

@[simp] theorem writeAuditSafe_deceased (ctx : Ctx) (a : AuditReq) (db : DB) :
    (writeAuditSafe ctx a db).deceased = db.deceased := by
  unfold writeAuditSafe; split <;> rfl

@[simp] theorem writeAuditSafe_now (ctx : Ctx) (a : AuditReq) (db : DB) :
    (writeAuditSafe ctx a db).now = db.now := by
  unfold writeAuditSafe; split <;> rfl

@[simp] theorem writeAuditSafe_auditAttempts (ctx : Ctx) (a : AuditReq) (db : DB) :
    (writeAuditSafe ctx a db).auditAttempts = db.auditAttempts + 1 := by
  unfold writeAuditSafe; split <;> rfl

@[simp] theorem writeAuditSafe_audits (ctx : Ctx) (a : AuditReq) (db : DB) :
    (writeAuditSafe ctx a db).audits =
      if ctx.auditOk then db.audits ++ [auditEntry ctx a] else db.audits := by
  unfold writeAuditSafe; split <;> simp_all

theorem createPlot_invalid (ctx : Ctx) (req : CreatePlotReq) (db : DB)
    (h : (natTruthy req.cemetery_id && strTruthy req.plot_code) = false) :
    createPlot ctx req db = (⟨400, .err "cemetery_id and plot_code are required"⟩, db) := by
  unfold createPlot; simp [h]

theorem createPlot_capacity (ctx : Ctx) (req : CreatePlotReq) (db : DB)
    (hv : (natTruthy req.cemetery_id && strTruthy req.plot_code) = true)
    (hfull : nonDeletedCount (req.cemetery_id.getD 0) db ≥ ctx.limit) :
    createPlot ctx req db = (⟨400, .err (capacityMsg ctx.limit)⟩, db) := by
  unfold createPlot; simp [hv, hfull]

theorem createPlot_ok_resp (ctx : Ctx) (req : CreatePlotReq) (db : DB)
    (hv : (natTruthy req.cemetery_id && strTruthy req.plot_code) = true)
    (hfree : ¬ nonDeletedCount (req.cemetery_id.getD 0) db ≥ ctx.limit) :
    (createPlot ctx req db).1 = ⟨201, .plot (newPlotRow req db)⟩ := by
  unfold createPlot; simp [hv, hfree]

theorem createPlot_ok_plots (ctx : Ctx) (req : CreatePlotReq) (db : DB)
    (hv : (natTruthy req.cemetery_id && strTruthy req.plot_code) = true)
    (hfree : ¬ nonDeletedCount (req.cemetery_id.getD 0) db ≥ ctx.limit) :
    (createPlot ctx req db).2.plots = db.plots ++ [newPlotRow req db] := by
  unfold createPlot; simp [hv, hfree]

theorem createPlot_ok_audits (ctx : Ctx) (req : CreatePlotReq) (db : DB)
    (hv : (natTruthy req.cemetery_id && strTruthy req.plot_code) = true)
    (hfree : ¬ nonDeletedCount (req.cemetery_id.getD 0) db ≥ ctx.limit) :
    (createPlot ctx req db).2.audits =
      if ctx.auditOk
      then db.audits ++ [auditEntry ctx (createPlotAuditReq (newPlotRow req db))]
      else db.audits := by
  unfold createPlot; simp [hv, hfree]

theorem createPlot_ok_attempts (ctx : Ctx) (req : CreatePlotReq) (db : DB)
    (hv : (natTruthy req.cemetery_id && strTruthy req.plot_code) = true)
    (hfree : ¬ nonDeletedCount (req.cemetery_id.getD 0) db ≥ ctx.limit) :
    (createPlot ctx req db).2.auditAttempts = db.auditAttempts + 1 := by
  unfold createPlot; simp [hv, hfree]

theorem createPlot_status_201 (ctx : Ctx) (req : CreatePlotReq) (db : DB)
    (h : (createPlot ctx req db).1.status = 201) :
    (natTruthy req.cemetery_id && strTruthy req.plot_code) = true
      ∧ ¬ nonDeletedCount (req.cemetery_id.getD 0) db ≥ ctx.limit := by
  by_cases hv : (natTruthy req.cemetery_id && strTruthy req.plot_code) = true
  · by_cases hfull : nonDeletedCount (req.cemetery_id.getD 0) db ≥ ctx.limit
    · rw [createPlot_capacity ctx req db hv hfull] at h
      simp at h
    · exact ⟨hv, hfull⟩
  · rw [createPlot_invalid ctx req db (Bool.not_eq_true _ ▸ hv)] at h
    simp at h

theorem updatePlot_notfound (ctx : Ctx) (id : Nat) (req : UpdatePlotReq) (db : DB)
    (h : findActivePlot id db = none) :
    updatePlot ctx id req db = (⟨404, .err "Plot not found"⟩, db) := by
  unfold updatePlot; rw [h]

theorem updatePlot_ok_resp (ctx : Ctx) (id : Nat) (req : UpdatePlotReq) (db : DB)
    (before : Plot) (h : findActivePlot id db = some before) :
    (updatePlot ctx id req db).1 = ⟨200, .plot (applyPlotUpdate req db.now before)⟩ := by
  unfold updatePlot; rw [h]

theorem updatePlot_ok_plots (ctx : Ctx) (id : Nat) (req : UpdatePlotReq) (db : DB)
    (before : Plot) (h : findActivePlot id db = some before) :
    (updatePlot ctx id req db).2.plots =
      db.plots.map (fun q => if q.id == id then applyPlotUpdate req db.now q else q) := by
  unfold updatePlot; rw [h]; simp

theorem updatePlot_ok_cemeteries (ctx : Ctx) (id : Nat) (req : UpdatePlotReq) (db : DB)
    (before : Plot) (h : findActivePlot id db = some before) :
    (updatePlot ctx id req db).2.cemeteries = db.cemeteries := by
  unfold updatePlot; rw [h]; simp

theorem updatePlot_ok_now (ctx : Ctx) (id : Nat) (req : UpdatePlotReq) (db : DB)
    (before : Plot) (h : findActivePlot id db = some before) :
    (updatePlot ctx id req db).2.now = db.now := by
  unfold updatePlot; rw [h]; simp

theorem updatePlot_ok_audits (ctx : Ctx) (id : Nat) (req : UpdatePlotReq) (db : DB)
    (before : Plot) (h : findActivePlot id db = some before) :
    (updatePlot ctx id req db).2.audits =
      if ctx.auditOk
      then db.audits
        ++ [auditEntry ctx (updatePlotAuditReq before (applyPlotUpdate req db.now before))]
      else db.audits := by
  unfold updatePlot; rw [h]; simp

theorem updatePlot_ok_attempts (ctx : Ctx) (id : Nat) (req : UpdatePlotReq) (db : DB)
    (before : Plot) (h : findActivePlot id db = some before) :
    (updatePlot ctx id req db).2.auditAttempts = db.auditAttempts + 1 := by
  unfold updatePlot; rw [h]; simp

theorem updatePlot_status_200 (ctx : Ctx) (id : Nat) (req : UpdatePlotReq) (db : DB)
    (h : (updatePlot ctx id req db).1.status = 200) :
    ∃ p, findActivePlot id db = some p := by
  cases hf : findActivePlot id db with
  | none => rw [updatePlot_notfound ctx id req db hf] at h; simp at h
  | some p => exact ⟨p, rfl⟩

theorem deletePlot_notfound (ctx : Ctx) (id : Nat) (db : DB)
    (h : findActivePlot id db = none) :
    deletePlot ctx id db = (⟨404, .err "Plot not found or already deleted"⟩, db) := by
  unfold deletePlot; rw [h]

theorem deletePlot_ok_resp (ctx : Ctx) (id : Nat) (db : DB)
    (p : Plot) (h : findActivePlot id db = some p) :
    (deletePlot ctx id db).1 = ⟨200, .okTrue⟩ := by
  unfold deletePlot; rw [h]

theorem deletePlot_ok_plots (ctx : Ctx) (id : Nat) (db : DB)
    (p : Plot) (h : findActivePlot id db = some p) :
    (deletePlot ctx id db).2.plots =
      db.plots.map (fun q => if q.id == id
        then { q with deleted_at := some db.now, updated_at := db.now } else q) := by
  unfold deletePlot; rw [h]; simp

theorem deletePlot_ok_deceased (ctx : Ctx) (id : Nat) (db : DB)
    (p : Plot) (h : findActivePlot id db = some p) :
    (deletePlot ctx id db).2.deceased = db.deceased := by
  unfold deletePlot; rw [h]; simp

theorem deletePlot_ok_cemeteries (ctx : Ctx) (id : Nat) (db : DB)
    (p : Plot) (h : findActivePlot id db = some p) :
    (deletePlot ctx id db).2.cemeteries = db.cemeteries := by
  unfold deletePlot; rw [h]; simp

theorem deletePlot_ok_now (ctx : Ctx) (id : Nat) (db : DB)
    (p : Plot) (h : findActivePlot id db = some p) :
    (deletePlot ctx id db).2.now = db.now := by
  unfold deletePlot; rw [h]; simp

theorem deletePlot_ok_audits (ctx : Ctx) (id : Nat) (db : DB)
    (p : Plot) (h : findActivePlot id db = some p) :
    (deletePlot ctx id db).2.audits =
      if ctx.auditOk then db.audits ++ [auditEntry ctx (deletePlotAuditReq p)]
      else db.audits := by
  unfold deletePlot; rw [h]; simp

theorem deletePlot_ok_attempts (ctx : Ctx) (id : Nat) (db : DB)
    (p : Plot) (h : findActivePlot id db = some p) :
    (deletePlot ctx id db).2.auditAttempts = db.auditAttempts + 1 := by
  unfold deletePlot; rw [h]; simp

theorem deletePlot_status_200 (ctx : Ctx) (id : Nat) (db : DB)
    (h : (deletePlot ctx id db).1.status = 200) :
    ∃ p, findActivePlot id db = some p := by
  cases hf : findActivePlot id db with
  | none => rw [deletePlot_notfound ctx id db hf] at h; simp at h
  | some p => exact ⟨p, rfl⟩

theorem createDeceased_invalid (ctx : Ctx) (plotId : Nat) (req : DeceasedReq) (db : DB)
    (h : (!(strTruthy req.deceased_full_name)
      || (strTrim (req.deceased_full_name.getD "")).length < 2 : Bool) = true) :
    createDeceased ctx plotId req db = (⟨400, .err "deceased_full_name is required"⟩, db) := by
  unfold createDeceased
  rw [if_pos (by exact_mod_cast of_decide_eq_true (by simp [h]))]

theorem createDeceased_ok_resp (ctx : Ctx) (plotId : Nat) (req : DeceasedReq) (db : DB)
    (hv : (!(strTruthy req.deceased_full_name)
      || (strTrim (req.deceased_full_name.getD "")).length < 2 : Bool) = false) :
    (createDeceased ctx plotId req db).1 = ⟨201, .deceasedRec (newDeceasedRow plotId req db)⟩ := by
  unfold createDeceased; simp [hv]

theorem createDeceased_ok_deceased (ctx : Ctx) (plotId : Nat) (req : DeceasedReq) (db : DB)
    (hv : (!(strTruthy req.deceased_full_name)
      || (strTrim (req.deceased_full_name.getD "")).length < 2 : Bool) = false) :
    (createDeceased ctx plotId req db).2.deceased
      = db.deceased ++ [newDeceasedRow plotId req db] := by
  unfold createDeceased; simp [hv]

theorem createDeceased_ok_audits (ctx : Ctx) (plotId : Nat) (req : DeceasedReq) (db : DB)
    (hv : (!(strTruthy req.deceased_full_name)
      || (strTrim (req.deceased_full_name.getD "")).length < 2 : Bool) = false) :
    (createDeceased ctx plotId req db).2.audits =
      if ctx.auditOk
      then db.audits
        ++ [auditEntry ctx (createDeceasedAuditReq plotId (newDeceasedRow plotId req db))]
      else db.audits := by
  unfold createDeceased; simp [hv]

theorem createDeceased_ok_attempts (ctx : Ctx) (plotId : Nat) (req : DeceasedReq) (db : DB)
    (hv : (!(strTruthy req.deceased_full_name)
      || (strTrim (req.deceased_full_name.getD "")).length < 2 : Bool) = false) :
    (createDeceased ctx plotId req db).2.auditAttempts = db.auditAttempts + 1 := by
  unfold createDeceased; simp [hv]

theorem createDeceased_status_201 (ctx : Ctx) (plotId : Nat) (req : DeceasedReq) (db : DB)
    (h : (createDeceased ctx plotId req db).1.status = 201) :
    (!(strTruthy req.deceased_full_name)
      || (strTrim (req.deceased_full_name.getD "")).length < 2 : Bool) = false := by
  by_cases hv : (!(strTruthy req.deceased_full_name)
      || (strTrim (req.deceased_full_name.getD "")).length < 2 : Bool) = true
  · rw [createDeceased_invalid ctx plotId req db hv] at h
    simp at h
  · exact Bool.not_eq_true _ ▸ hv

theorem updateDeceased_notfound (ctx : Ctx) (id : Nat) (req : DeceasedReq) (db : DB)
    (h : db.deceased.find? (fun d => d.id == id) = none) :
    updateDeceased ctx id req db = (⟨404, .err "Record not found"⟩, db) := by
  unfold updateDeceased; rw [h]

theorem updateDeceased_ok_resp (ctx : Ctx) (id : Nat) (req : DeceasedReq) (db : DB)
    (d0 : Deceased) (h : db.deceased.find? (fun d => d.id == id) = some d0) :
    (updateDeceased ctx id req db).1 = ⟨200, .deceasedRec (applyDeceasedUpdate req d0)⟩ := by
  unfold updateDeceased; rw [h]

theorem updateDeceased_ok_deceased (ctx : Ctx) (id : Nat) (req : DeceasedReq) (db : DB)
    (d0 : Deceased) (h : db.deceased.find? (fun d => d.id == id) = some d0) :
    (updateDeceased ctx id req db).2.deceased =
      db.deceased.map (fun q => if q.id == id then applyDeceasedUpdate req q else q) := by
  unfold updateDeceased; rw [h]; simp

theorem updateDeceased_ok_audits (ctx : Ctx) (id : Nat) (req : DeceasedReq) (db : DB)
    (d0 : Deceased) (h : db.deceased.find? (fun d => d.id == id) = some d0) :
    (updateDeceased ctx id req db).2.audits =
      if ctx.auditOk
      then db.audits
        ++ [auditEntry ctx (updateDeceasedAuditReq req (applyDeceasedUpdate req d0))]
      else db.audits := by
  unfold updateDeceased; rw [h]; simp

theorem updateDeceased_ok_attempts (ctx : Ctx) (id : Nat) (req : DeceasedReq) (db : DB)
    (d0 : Deceased) (h : db.deceased.find? (fun d => d.id == id) = some d0) :
    (updateDeceased ctx id req db).2.auditAttempts = db.auditAttempts + 1 := by
  unfold updateDeceased; rw [h]; simp

theorem updateDeceased_status_200 (ctx : Ctx) (id : Nat) (req : DeceasedReq) (db : DB)
    (h : (updateDeceased ctx id req db).1.status = 200) :
    ∃ d0, db.deceased.find? (fun d => d.id == id) = some d0 := by
  cases hf : db.deceased.find? (fun d => d.id == id) with
  | none => rw [updateDeceased_notfound ctx id req db hf] at h; simp at h
  | some d0 => exact ⟨d0, rfl⟩

/-- Lemma: `find?` commutes with a map that does not change the predicate's verdict. -/
theorem find?_map_of_pred_eq {α : Type} (f : α → α) (p : α → Bool) (l : List α)
    (h : ∀ a, p (f a) = p a) : (l.map f).find? p = (l.find? p).map f := by
  induction l with
  | nil => rfl
  | cons a l ih =>
    by_cases hp : p a = true
    · have hfa : p (f a) = true := by rw [h a]; exact hp
      simp [List.find?_cons_of_pos _ hp, List.find?_cons_of_pos _ hfa]
    · have hp' : ¬ p a = true := hp
      have hfa : ¬ p (f a) = true := by rw [h a]; exact hp'
      simp only [List.map_cons, List.find?_cons_of_neg _ hfa, List.find?_cons_of_neg _ hp']
      exact ih

/-- Lemma: `filter` commutes with a map that does not change the predicate's verdict. -/
theorem filter_map_of_pred_eq {α : Type} (f : α → α) (p : α → Bool) (l : List α)
    (h : ∀ a, p (f a) = p a) : (l.map f).filter p = (l.filter p).map f := by
  induction l with
  | nil => rfl
  | cons a l ih =>
    by_cases hp : p a = true
    · have hfa : p (f a) = true := by rw [h a]; exact hp
      simp [List.filter_cons, hfa, hp, ih]
    · have hfa : ¬ p (f a) = true := by rw [h a]; exact hp
      simp [List.filter_cons, hfa, hp, ih]

/-- In a list whose keys are distinct, filtering by the key of a member
yields exactly that member. -/
theorem filter_key_eq_single {α : Type} (key : α → Nat) (l : List α)
    (h : (l.map key).Nodup) (a : α) (ha : a ∈ l) :
    l.filter (fun q => key q == key a) = [a] := by
  induction l with
  | nil => cases ha
  | cons b l ih =>
    rw [List.map_cons, List.nodup_cons] at h
    rcases List.mem_cons.mp ha with rfl | hmem
    · have hnil : l.filter (fun q => key q == key a) = [] := by
        apply List.filter_eq_nil_iff.mpr
        intro x hx hkey
        exact h.1 (by
          have hxa : key x = key a := by simpa using hkey
          rw [← hxa]
          exact List.mem_map_of_mem key hx)
      simp [List.filter_cons, hnil]
    · have hbne : (key b == key a) = false := by
        apply beq_eq_false_iff_ne.mpr
        intro hEq
        exact h.1 (hEq ▸ List.mem_map_of_mem key hmem)
      simp [List.filter_cons, hbne, ih h.2 hmem]

theorem escChar_branches (c : Char) :
    (if isReserved c then (escMap c).data else [c]) = (escSpec c).data := by
  by_cases h1 : c = '&' <;> by_cases h2 : c = '<' <;> by_cases h3 : c = '>'
    <;> by_cases h4 : c = quoteC <;> by_cases h5 : c = aposC
    <;> simp_all [isReserved, escMap, escSpec, String.singleton]

theorem replaceChars_spec (l : List Char) :
    (⟨replaceChars l⟩ : String) = (l.map escSpec).foldr (· ++ ·) "" := by
  induction l with
  | nil => rfl
  | cons c l ih =>
    show (⟨(if isReserved c then (escMap c).data else [c]) ++ replaceChars l⟩ : String) = _
    rw [escChar_branches c]
    simp only [List.map_cons, List.foldr_cons, ← ih]
    rfl

/-- C9: every dynamic value interpolated into a notification body passes
through `esc`, and `esc` replaces each occurrence of the five reserved
markup characters (ampersand, less-than, greater-than, double-quote,
single-quote) with its entity, leaving every other character unchanged. -/
theorem escaping_and_templates :
    (∀ s : String, esc s = (s.data.map escSpec).foldr (· ++ ·) "")
    ∧ (∀ a b c d e, plotCreatedHtml a b c d e
        = plotCreatedShell (esc a) (esc b) (esc c) (esc d) (esc e))
    ∧ (∀ a b c d e f, plotUpdatedHtml a b c d e f
        = plotUpdatedShell (esc a) (esc b) (esc c) (esc d) (esc e) (esc f))
    ∧ (∀ a b c d, plotDeletedHtml a b c d
        = plotDeletedShell (esc a) (esc b) (esc c) (esc d))
    ∧ (∀ a b c d e f, deceasedAddedHtml a b c d e f
        = deceasedAddedShell (esc a) (esc b) (esc c) (esc d) (esc e) (esc f)) := by
  refine ⟨fun s => replaceChars_spec s.data, ?_, ?_, ?_, ?_⟩
    <;> intros <;> rfl

/-- C3: when a cemetery already holds at least the configured limit of
non-deleted plots, a well-formed create-plot request for it is rejected
with HTTP 400 and the capacity-limit message, and the database (in
particular the `plots` table) is left unchanged. -/
theorem capacity_limit_rejects (ctx : Ctx) (req : CreatePlotReq) (db : DB)
    (hc : natTruthy req.cemetery_id = true) (hp : strTruthy req.plot_code = true)
    (hfull : nonDeletedCount (req.cemetery_id.getD 0) db ≥ ctx.limit) :
    createPlot ctx req db = (⟨400, .err (capacityMsg ctx.limit)⟩, db) := by
  unfold createPlot
  simp [hc, hp, hfull]

theorem capacity_limit_rejects_witness :
    createPlot { limit := 1 } { cemetery_id := some 1, plot_code := some "B-02" } oneplotDB
      = (⟨400, .err (capacityMsg 1)⟩, oneplotDB) :=
  capacity_limit_rejects { limit := 1 } { cemetery_id := some 1, plot_code := some "B-02" }
    oneplotDB (by decide) (by decide) (by decide)

/-- C8 fails as stated: a create-plot request whose plot code consists
only of whitespace is NOT rejected — the handler's `!plot_code` check only
catches a missing or empty code, so `" "` passes validation, the row is
inserted, and the stored plot code is the trimmed (empty) string. -/
theorem whitespace_plot_code_counterexample :
    (createPlot {} { cemetery_id := some 1, plot_code := some " " } baseDB).1.status = 201
    ∧ (createPlot {} { cemetery_id := some 1, plot_code := some " " } baseDB).2.plots = [wsPlot]
    ∧ wsPlot.plot_code = "" := by
  refine ⟨rfl, ?_, rfl⟩
  decide

/-- C8 amended: a create-plot request is rejected with the validation
error when the cemetery id is missing (or 0) or the plot code is missing
or empty — but a whitespace-only plot code is accepted; whenever a request
is accepted (201), it supplied a truthy cemetery id and a non-empty plot
code, the inserted row's plot code is the trimmed supplied code, and the
status defaults to "Available" when omitted. -/
theorem plot_create_validation (ctx : Ctx) (req : CreatePlotReq) (db : DB) :
    ((natTruthy req.cemetery_id = false ∨ strTruthy req.plot_code = false) →
      createPlot ctx req db = (⟨400, .err "cemetery_id and plot_code are required"⟩, db))
    ∧ ((createPlot ctx req db).1.status = 201 →
      natTruthy req.cemetery_id = true ∧ strTruthy req.plot_code = true ∧
      ∃ p, (createPlot ctx req db).1.body = .plot p
        ∧ (createPlot ctx req db).2.plots = db.plots ++ [p]
        ∧ p.plot_code = strTrim (req.plot_code.getD "")
        ∧ (req.status = none → p.status = "Available")) := by
  constructor
  · intro h
    apply createPlot_invalid
    rcases h with h | h <;> simp [h]
  · intro h
    obtain ⟨hv, hfree⟩ := createPlot_status_201 ctx req db h
    have hsplit : natTruthy req.cemetery_id = true ∧ strTruthy req.plot_code = true := by
      simpa using hv
    refine ⟨hsplit.1, hsplit.2, newPlotRow req db, ?_, ?_, rfl, ?_⟩
    · rw [createPlot_ok_resp ctx req db hv hfree]
    · exact createPlot_ok_plots ctx req db hv hfree
    · intro hs
      simp [newPlotRow, orDefault, hs]

theorem plot_create_validation_witness :
    createPlot {} {} baseDB = (⟨400, .err "cemetery_id and plot_code are required"⟩, baseDB) :=
  (plot_create_validation {} {} baseDB).1 (Or.inl rfl)

/-- C7 fails on one point: a burial type supplied as an explicit empty
string is not stored as its uppercased value (the empty string) — the
handler's `burial_type || "BURIAL"` treats the empty string like an
omitted field and stores the default "BURIAL". -/
theorem burial_type_empty_counterexample :
    (createDeceased {} 1 emptyBurialReq baseDB).1.status = 201
    ∧ (createDeceased {} 1 emptyBurialReq baseDB).2.deceased.map
        (fun d => d.burial_type) = ["BURIAL"]
    ∧ strUpper "" = "" := by
  refine ⟨rfl, ?_, rfl⟩
  decide

/-- C7 amended: a create-deceased request whose full name is missing or
has trimmed length below 2 is rejected with the validation error and no
row is inserted; with a valid name the row is inserted, the stored name is
trimmed, and the stored burial type is the supplied value uppercased,
defaulting to "BURIAL" when the field is omitted or supplied empty. -/
theorem deceased_create_validation (ctx : Ctx) (plotId : Nat) (req : DeceasedReq) (db : DB) :
    ((req.deceased_full_name = none ∨ (strTrim (nice req.deceased_full_name)).length < 2) →
      createDeceased ctx plotId req db = (⟨400, .err "deceased_full_name is required"⟩, db))
    ∧ (∀ s, req.deceased_full_name = some s → 2 ≤ (strTrim s).length →
      (createDeceased ctx plotId req db).1
          = ⟨201, .deceasedRec (newDeceasedRow plotId req db)⟩
        ∧ (createDeceased ctx plotId req db).2.deceased
          = db.deceased ++ [newDeceasedRow plotId req db]
        ∧ (newDeceasedRow plotId req db).deceased_full_name = strTrim s
        ∧ (newDeceasedRow plotId req db).burial_type =
            (match req.burial_type with
             | some t => if t = "" then "BURIAL" else strUpper t
             | none => "BURIAL")) := by
  constructor
  · intro h
    apply createDeceased_invalid
    cases hf : req.deceased_full_name with
    | none => simp [strTruthy]
    | some s =>
      rcases h with h | h
      · rw [hf] at h; cases h
      · rw [hf] at h
        simp only [nice] at h
        by_cases hs : s = ""
        · simp [strTruthy, hs]
        · simp [strTruthy, hs, h]
  · intro s hreq hlen
    have hs : s ≠ "" := by
      intro hempty
      rw [hempty] at hlen
      exact absurd hlen (by decide)
    have hv : (!(strTruthy req.deceased_full_name)
        || (strTrim (req.deceased_full_name.getD "")).length < 2 : Bool) = false := by
      rw [hreq]
      simp [strTruthy, hs]
      omega
    refine ⟨createDeceased_ok_resp ctx plotId req db hv,
      createDeceased_ok_deceased ctx plotId req db hv, ?_, ?_⟩
    · simp [newDeceasedRow, hreq]
    · cases ht : req.burial_type with
      | none => simp [newDeceasedRow, orDefault, ht]; decide
      | some t =>
        by_cases hte : t = ""
        · simp [newDeceasedRow, orDefault, ht, hte]; decide
        · simp [newDeceasedRow, orDefault, ht, hte]

theorem deceased_create_validation_witness :
    (createDeceased {} 1 janeReq baseDB).1
      = ⟨201, .deceasedRec (newDeceasedRow 1 janeReq baseDB)⟩
    ∧ (newDeceasedRow 1 janeReq baseDB).deceased_full_name = strTrim " Jane Roe " := by
  have h := (deceased_create_validation {} 1 janeReq baseDB).2 " Jane Roe " rfl (by decide)
  exact ⟨h.1, h.2.2.1⟩

theorem sqlParam_coalesce (v old : Option String) :
    coalesceOpt (sqlParam v) old =
      (match v with
       | some s => if s = "" then old else some s
       | none => old) := by
  cases v with
  | none => rfl
  | some s => by_cases hs : s = "" <;> simp [sqlParam, coalesceOpt, hs]

theorem sqlParam_coalesce_str (v : Option String) (old : String) :
    (match sqlParam v with
     | some s => s
     | none => old) =
      (match v with
       | some s => if s = "" then old else s
       | none => old) := by
  cases v with
  | none => rfl
  | some s => by_cases hs : s = "" <;> simp [sqlParam, hs]

/-- C5 fails on its central point: supplying a field as an explicit empty
string does NOT set the stored value to null. The handler maps `""` to a
null SQL parameter, but `COALESCE(NULL, f)` then keeps the old value, so
the stored notes stay `"keep"` — exactly as if the field had been
omitted. -/
theorem empty_string_update_counterexample :
    (updateDeceased {} 1 { notes := some "" } deceasedDB).1
      = ⟨200, .deceasedRec baseDeceased⟩
    ∧ baseDeceased.notes = some "keep"
    ∧ (updateDeceased {} 1 { notes := some "" } deceasedDB).2.deceased
      = [baseDeceased] := by
  refine ⟨by decide, rfl, by decide⟩

/-- C5 amended: in an update of a deceased record, a field supplied as an
explicitly empty string is treated the same as an omitted field — the
stored value is unchanged (it is not set to null); only a non-empty
supplied value replaces the stored one; and the update fails with 404
NotFound, leaving the database unchanged, when no record matches the id. -/
theorem deceased_update_empty_as_omitted (ctx : Ctx) (id : Nat) (req : DeceasedReq) (db : DB) :
    (db.deceased.find? (fun d => d.id == id) = none →
      updateDeceased ctx id req db = (⟨404, .err "Record not found"⟩, db))
    ∧ (∀ d0, db.deceased.find? (fun d => d.id == id) = some d0 →
      (updateDeceased ctx id req db).1 = ⟨200, .deceasedRec (applyDeceasedUpdate req d0)⟩
      ∧ (applyDeceasedUpdate req d0).deceased_full_name =
          (match req.deceased_full_name with
           | some s => if s = "" then d0.deceased_full_name else s
           | none => d0.deceased_full_name)
      ∧ (applyDeceasedUpdate req d0).id_number =
          (match req.id_number with
           | some s => if s = "" then d0.id_number else some s
           | none => d0.id_number)
      ∧ (applyDeceasedUpdate req d0).date_of_birth =
          (match req.date_of_birth with
           | some s => if s = "" then d0.date_of_birth else some s
           | none => d0.date_of_birth)
      ∧ (applyDeceasedUpdate req d0).date_of_death =
          (match req.date_of_death with
           | some s => if s = "" then d0.date_of_death else some s
           | none => d0.date_of_death)
      ∧ (applyDeceasedUpdate req d0).burial_type =
          (match req.burial_type with
           | some s => if s = "" then d0.burial_type else s
           | none => d0.burial_type)
      ∧ (applyDeceasedUpdate req d0).burial_date =
          (match req.burial_date with
           | some s => if s = "" then d0.burial_date else some s
           | none => d0.burial_date)
      ∧ (applyDeceasedUpdate req d0).next_of_kin_name =
          (match req.next_of_kin_name with
           | some s => if s = "" then d0.next_of_kin_name else some s
           | none => d0.next_of_kin_name)
      ∧ (applyDeceasedUpdate req d0).next_of_kin_relationship =
          (match req.next_of_kin_relationship with
           | some s => if s = "" then d0.next_of_kin_relationship else some s
           | none => d0.next_of_kin_relationship)
      ∧ (applyDeceasedUpdate req d0).next_of_kin_phone =
          (match req.next_of_kin_phone with
           | some s => if s = "" then d0.next_of_kin_phone else some s
           | none => d0.next_of_kin_phone)
      ∧ (applyDeceasedUpdate req d0).next_of_kin_email =
          (match req.next_of_kin_email with
           | some s => if s = "" then d0.next_of_kin_email else some s
           | none => d0.next_of_kin_email)
      ∧ (applyDeceasedUpdate req d0).next_of_kin_address =
          (match req.next_of_kin_address with
           | some s => if s = "" then d0.next_of_kin_address else some s
           | none => d0.next_of_kin_address)
      ∧ (applyDeceasedUpdate req d0).undertaker_name =
          (match req.undertaker_name with
           | some s => if s = "" then d0.undertaker_name else some s
           | none => d0.undertaker_name)
      ∧ (applyDeceasedUpdate req d0).undertaker_phone =
          (match req.undertaker_phone with
           | some s => if s = "" then d0.undertaker_phone else some s
           | none => d0.undertaker_phone)
      ∧ (applyDeceasedUpdate req d0).cause_of_death =
          (match req.cause_of_death with
           | some s => if s = "" then d0.cause_of_death else some s
           | none => d0.cause_of_death)
      ∧ (applyDeceasedUpdate req d0).notes =
          (match req.notes with
           | some s => if s = "" then d0.notes else some s
           | none => d0.notes)) := by
  refine ⟨updateDeceased_notfound ctx id req db, fun d0 h => ?_⟩
  exact ⟨updateDeceased_ok_resp ctx id req db d0 h,
    sqlParam_coalesce_str _ _, sqlParam_coalesce _ _, sqlParam_coalesce _ _,
    sqlParam_coalesce _ _, sqlParam_coalesce_str _ _, sqlParam_coalesce _ _,
    sqlParam_coalesce _ _, sqlParam_coalesce _ _, sqlParam_coalesce _ _,
    sqlParam_coalesce _ _, sqlParam_coalesce _ _, sqlParam_coalesce _ _,
    sqlParam_coalesce _ _, sqlParam_coalesce _ _, sqlParam_coalesce _ _⟩

theorem deceased_update_empty_as_omitted_witness :
    (updateDeceased {} 1 { next_of_kin_name := some "Ann" } deceasedDB).1
      = ⟨200, .deceasedRec (applyDeceasedUpdate { next_of_kin_name := some "Ann" } baseDeceased)⟩ :=
  ((deceased_update_empty_as_omitted {} 1 { next_of_kin_name := some "Ann" } deceasedDB).2
    baseDeceased (by decide)).1

/-- C10: in an update-plot request, any falsy coords value (null, empty
string, 0, false — and an omitted field) leaves the stored coordinates
unchanged, so coordinates can never be cleared back to null by an update;
only a truthy coords value replaces them (with its JSON serialization). -/
theorem coords_never_cleared (ctx : Ctx) (id : Nat) (req : UpdatePlotReq) (db : DB)
    (before : Plot) (h : findActivePlot id db = some before) :
    ∃ after, (updatePlot ctx id req db).1 = ⟨200, .plot after⟩
      ∧ ((req.coords = .null ∨ req.coords = .str "" ∨ req.coords = .num 0
          ∨ req.coords = .bool false ∨ req.coords = .undef) → after.coords = before.coords)
      ∧ (req.coords.truthy = false → after.coords = before.coords)
      ∧ (before.coords ≠ none → after.coords ≠ none)
      ∧ (req.coords.truthy = true → after.coords = some req.coords.stringify) := by
  refine ⟨applyPlotUpdate req db.now before,
    updatePlot_ok_resp ctx id req db before h, ?_, ?_, ?_, ?_⟩
  · intro hf
    have ht : req.coords.truthy = false := by
      rcases hf with hf | hf | hf | hf | hf <;> rw [hf] <;> decide
    simp [applyPlotUpdate, coalesceOpt, ht]
  · intro ht
    simp [applyPlotUpdate, coalesceOpt, ht]
  · intro hne
    by_cases ht : req.coords.truthy = true
    · simp [applyPlotUpdate, coalesceOpt, ht]
    · have ht' : req.coords.truthy = false := by simpa using ht
      simp [applyPlotUpdate, coalesceOpt, ht']
      exact hne
  · intro ht
    simp [applyPlotUpdate, coalesceOpt, ht]

theorem coords_never_cleared_witness :
    (updatePlot {} 1 { coords := .null } oneplotDB).1.status = 200 := by
  obtain ⟨after, h1, _, _, _, _⟩ :=
    coords_never_cleared {} 1 { coords := .null } oneplotDB basePlot (by decide)
  rw [h1]

theorem findActivePlot_after_update (ctx : Ctx) (id : Nat) (req : UpdatePlotReq) (db : DB)
    (before : Plot) (h : findActivePlot id db = some before) :
    findActivePlot id (updatePlot ctx id req db).2
      = some (applyPlotUpdate req db.now before) := by
  have hid : (before.id == id) = true := by
    have hp := List.find?_some h
    simp only [Bool.and_eq_true] at hp
    exact hp.1.1
  unfold findActivePlot at h ⊢
  rw [updatePlot_ok_plots ctx id req db before h,
    updatePlot_ok_cemeteries ctx id req db before h]
  rw [find?_map_of_pred_eq _ _ _ ?hpred]
  case hpred =>
    intro a
    by_cases ha : (a.id == id) = true
    · simp [ha, applyPlotUpdate]
    · simp [ha]
  rw [h]
  have hid' : before.id = id := by simpa using hid
  simp [hid']

theorem applyPlotUpdate_empty (n : Nat) (p : Plot) (hn : p.updated_at = n) :
    applyPlotUpdate {} n p = p := by
  subst hn
  rfl

/-- C4: updating an existing non-deleted plot replaces a field only when
the request supplies a non-null value for it; every omitted (or null)
field keeps its pre-update value; and applying an empty update after an
update leaves the stored row exactly as the first update left it. -/
theorem plot_partial_update (ctx : Ctx) (id : Nat) (req : UpdatePlotReq) (db : DB)
    (before : Plot) (h : findActivePlot id db = some before) :
    ∃ after, (updatePlot ctx id req db).1 = ⟨200, .plot after⟩
      ∧ (req.owner_name = none → after.owner_name = before.owner_name)
      ∧ (req.gender = none → after.gender = before.gender)
      ∧ (req.status = none → after.status = before.status)
      ∧ (req.payment_date = none → after.payment_date = before.payment_date)
      ∧ (req.row_num = none → after.row_num = before.row_num)
      ∧ (req.col_num = none → after.col_num = before.col_num)
      ∧ (req.coords = .undef → after.coords = before.coords)
      ∧ (after.owner_name ≠ before.owner_name → req.owner_name ≠ none)
      ∧ (after.gender ≠ before.gender → req.gender ≠ none)
      ∧ (after.status ≠ before.status → req.status ≠ none)
      ∧ (after.payment_date ≠ before.payment_date → req.payment_date ≠ none)
      ∧ (after.row_num ≠ before.row_num → req.row_num ≠ none)
      ∧ (after.col_num ≠ before.col_num → req.col_num ≠ none)
      ∧ (after.coords ≠ before.coords → req.coords ≠ .undef ∧ req.coords ≠ .null)
      ∧ (∀ ctx2, (updatePlot ctx2 id {} (updatePlot ctx id req db).2).1
          = ⟨200, .plot after⟩) := by
  refine ⟨applyPlotUpdate req db.now before,
    updatePlot_ok_resp ctx id req db before h,
    ?_, ?_, ?_, ?_, ?_, ?_, ?_, ?_, ?_, ?_, ?_, ?_, ?_, ?_, ?_⟩
  · intro hf; simp [applyPlotUpdate, coalesceOpt, hf]
  · intro hf; simp [applyPlotUpdate, coalesceOpt, hf]
  · intro hf; simp [applyPlotUpdate, hf]
  · intro hf; simp [applyPlotUpdate, coalesceOpt, hf]
  · intro hf; simp [applyPlotUpdate, coalesceOpt, hf]
  · intro hf; simp [applyPlotUpdate, coalesceOpt, hf]
  · intro hf; simp [applyPlotUpdate, coalesceOpt, hf, JsValue.truthy]
  · intro hne hnone; exact hne (by simp [applyPlotUpdate, coalesceOpt, hnone])
  · intro hne hnone; exact hne (by simp [applyPlotUpdate, coalesceOpt, hnone])
  · intro hne hnone; exact hne (by simp [applyPlotUpdate, hnone])
  · intro hne hnone; exact hne (by simp [applyPlotUpdate, coalesceOpt, hnone])
  · intro hne hnone; exact hne (by simp [applyPlotUpdate, coalesceOpt, hnone])
  · intro hne hnone; exact hne (by simp [applyPlotUpdate, coalesceOpt, hnone])
  · intro hne
    constructor <;> intro heq
      <;> exact hne (by simp [applyPlotUpdate, coalesceOpt, heq, JsValue.truthy])
  · intro ctx2
    rw [updatePlot_ok_resp ctx2 id {} _ _ (findActivePlot_after_update ctx id req db before h),
      updatePlot_ok_now ctx id req db before h,
      applyPlotUpdate_empty db.now (applyPlotUpdate req db.now before) rfl]

theorem plot_partial_update_witness :
    (updatePlot {} 1 {} ((updatePlot {} 1 { owner_name := some "Bob" } oneplotDB).2)).1
      = (updatePlot {} 1 { owner_name := some "Bob" } oneplotDB).1 := by
  obtain ⟨after, h1, _, _, _, _, _, _, _, _, _, _, _, _, _, _, hidem⟩ :=
    plot_partial_update {} 1 { owner_name := some "Bob" } oneplotDB basePlot (by decide)
  rw [h1, hidem {}]

/-- C2: every successful create/update/soft-delete of a plot and every
successful create/update of a deceased record appends exactly one audit
entry, whose action tag matches the operation and whose entity id is the
affected row's id — for every context, in particular whether or not the
notification channel is configured. -/
theorem one_audit_entry_per_mutation :
    (∀ (ctx : Ctx) (req : CreatePlotReq) (db : DB), ctx.auditOk = true →
      (createPlot ctx req db).1.status = 201 →
      ∃ p e, (createPlot ctx req db).1.body = .plot p
        ∧ (createPlot ctx req db).2.audits = db.audits ++ [e]
        ∧ e.action = "CREATE_PLOT" ∧ e.entity_id = some p.id)
    ∧ (∀ (ctx : Ctx) (id : Nat) (req : UpdatePlotReq) (db : DB), ctx.auditOk = true →
      (updatePlot ctx id req db).1.status = 200 →
      ∃ p e, (updatePlot ctx id req db).1.body = .plot p
        ∧ (updatePlot ctx id req db).2.audits = db.audits ++ [e]
        ∧ e.action = "UPDATE_PLOT" ∧ e.entity_id = some p.id)
    ∧ (∀ (ctx : Ctx) (id : Nat) (db : DB) (p : Plot), ctx.auditOk = true →
      findActivePlot id db = some p →
      ∃ e, (deletePlot ctx id db).1 = ⟨200, .okTrue⟩
        ∧ (deletePlot ctx id db).2.audits = db.audits ++ [e]
        ∧ e.action = "DELETE_PLOT" ∧ e.entity_id = some p.id)
    ∧ (∀ (ctx : Ctx) (plotId : Nat) (req : DeceasedReq) (db : DB), ctx.auditOk = true →
      (createDeceased ctx plotId req db).1.status = 201 →
      ∃ d e, (createDeceased ctx plotId req db).1.body = .deceasedRec d
        ∧ (createDeceased ctx plotId req db).2.audits = db.audits ++ [e]
        ∧ e.action = "CREATE_DECEASED" ∧ e.entity_id = some d.id)
    ∧ (∀ (ctx : Ctx) (id : Nat) (req : DeceasedReq) (db : DB), ctx.auditOk = true →
      (updateDeceased ctx id req db).1.status = 200 →
      ∃ d e, (updateDeceased ctx id req db).1.body = .deceasedRec d
        ∧ (updateDeceased ctx id req db).2.audits = db.audits ++ [e]
        ∧ e.action = "UPDATE_DECEASED" ∧ e.entity_id = some d.id) := by
  refine ⟨?_, ?_, ?_, ?_, ?_⟩
  · intro ctx req db hok h
    obtain ⟨hv, hfree⟩ := createPlot_status_201 ctx req db h
    refine ⟨newPlotRow req db, auditEntry ctx (createPlotAuditReq (newPlotRow req db)),
      ?_, ?_, rfl, rfl⟩
    · rw [createPlot_ok_resp ctx req db hv hfree]
    · rw [createPlot_ok_audits ctx req db hv hfree, if_pos hok]
  · intro ctx id req db hok h
    obtain ⟨p, hf⟩ := updatePlot_status_200 ctx id req db h
    refine ⟨applyPlotUpdate req db.now p,
      auditEntry ctx (updatePlotAuditReq p (applyPlotUpdate req db.now p)),
      ?_, ?_, rfl, rfl⟩
    · rw [updatePlot_ok_resp ctx id req db p hf]
    · rw [updatePlot_ok_audits ctx id req db p hf, if_pos hok]
  · intro ctx id db p hok hf
    refine ⟨auditEntry ctx (deletePlotAuditReq p),
      deletePlot_ok_resp ctx id db p hf, ?_, rfl, rfl⟩
    rw [deletePlot_ok_audits ctx id db p hf, if_pos hok]
  · intro ctx plotId req db hok h
    have hv := createDeceased_status_201 ctx plotId req db h
    refine ⟨newDeceasedRow plotId req db,
      auditEntry ctx (createDeceasedAuditReq plotId (newDeceasedRow plotId req db)),
      ?_, ?_, rfl, rfl⟩
    · rw [createDeceased_ok_resp ctx plotId req db hv]
    · rw [createDeceased_ok_audits ctx plotId req db hv, if_pos hok]
  · intro ctx id req db hok h
    obtain ⟨d0, hf⟩ := updateDeceased_status_200 ctx id req db h
    refine ⟨applyDeceasedUpdate req d0,
      auditEntry ctx (updateDeceasedAuditReq req (applyDeceasedUpdate req d0)),
      ?_, ?_, rfl, rfl⟩
    · rw [updateDeceased_ok_resp ctx id req db d0 hf]
    · rw [updateDeceased_ok_audits ctx id req db d0 hf, if_pos hok]

theorem one_audit_entry_per_mutation_witness :
    (createPlot {} { cemetery_id := some 1, plot_code := some "A-01" } baseDB).2.audits.length
      = baseDB.audits.length + 1 := by
  obtain ⟨p, e, _, h2, _, _⟩ := one_audit_entry_per_mutation.1 {}
    { cemetery_id := some 1, plot_code := some "A-01" } baseDB rfl (by decide)
  rw [h2]
  simp

/-- C1: for each mutating operation, a thrown audit-write failure is
swallowed: the HTTP response (status and body) is identical to the one
produced when the audit write succeeds; and whenever the primary
persistence write succeeds, the audit insert is attempted exactly once
within the request — never retried. -/
theorem audit_failure_swallowed :
    (∀ (ctx : Ctx) (req : CreatePlotReq) (db : DB),
      (createPlot { ctx with auditOk := false } req db).1
        = (createPlot { ctx with auditOk := true } req db).1)
    ∧ (∀ (ctx : Ctx) (req : CreatePlotReq) (db : DB),
      (createPlot ctx req db).1.status = 201 →
      (createPlot ctx req db).2.auditAttempts = db.auditAttempts + 1)
    ∧ (∀ (ctx : Ctx) (id : Nat) (req : UpdatePlotReq) (db : DB),
      (updatePlot { ctx with auditOk := false } id req db).1
        = (updatePlot { ctx with auditOk := true } id req db).1)
    ∧ (∀ (ctx : Ctx) (id : Nat) (req : UpdatePlotReq) (db : DB),
      (updatePlot ctx id req db).1.status = 200 →
      (updatePlot ctx id req db).2.auditAttempts = db.auditAttempts + 1)
    ∧ (∀ (ctx : Ctx) (id : Nat) (db : DB),
      (deletePlot { ctx with auditOk := false } id db).1
        = (deletePlot { ctx with auditOk := true } id db).1)
    ∧ (∀ (ctx : Ctx) (id : Nat) (db : DB),
      (deletePlot ctx id db).1.status = 200 →
      (deletePlot ctx id db).2.auditAttempts = db.auditAttempts + 1)
    ∧ (∀ (ctx : Ctx) (plotId : Nat) (req : DeceasedReq) (db : DB),
      (createDeceased { ctx with auditOk := false } plotId req db).1
        = (createDeceased { ctx with auditOk := true } plotId req db).1)
    ∧ (∀ (ctx : Ctx) (plotId : Nat) (req : DeceasedReq) (db : DB),
      (createDeceased ctx plotId req db).1.status = 201 →
      (createDeceased ctx plotId req db).2.auditAttempts = db.auditAttempts + 1)
    ∧ (∀ (ctx : Ctx) (id : Nat) (req : DeceasedReq) (db : DB),
      (updateDeceased { ctx with auditOk := false } id req db).1
        = (updateDeceased { ctx with auditOk := true } id req db).1)
    ∧ (∀ (ctx : Ctx) (id : Nat) (req : DeceasedReq) (db : DB),
      (updateDeceased ctx id req db).1.status = 200 →
      (updateDeceased ctx id req db).2.auditAttempts = db.auditAttempts + 1) := by
  refine ⟨?_, ?_, ?_, ?_, ?_, ?_, ?_, ?_, ?_, ?_⟩
  · intro ctx req db
    by_cases hv : (natTruthy req.cemetery_id && strTruthy req.plot_code) = true
    · by_cases hfull : nonDeletedCount (req.cemetery_id.getD 0) db ≥ ctx.limit
      · rw [createPlot_capacity { ctx with auditOk := false } req db hv hfull,
          createPlot_capacity { ctx with auditOk := true } req db hv hfull]
      · rw [createPlot_ok_resp { ctx with auditOk := false } req db hv hfull,
          createPlot_ok_resp { ctx with auditOk := true } req db hv hfull]
    · have hv' : (natTruthy req.cemetery_id && strTruthy req.plot_code) = false := by
        simpa using hv
      rw [createPlot_invalid { ctx with auditOk := false } req db hv',
        createPlot_invalid { ctx with auditOk := true } req db hv']
  · intro ctx req db h
    obtain ⟨hv, hfree⟩ := createPlot_status_201 ctx req db h
    exact createPlot_ok_attempts ctx req db hv hfree
  · intro ctx id req db
    cases hf : findActivePlot id db with
    | none => rw [updatePlot_notfound { ctx with auditOk := false } id req db hf,
        updatePlot_notfound { ctx with auditOk := true } id req db hf]
    | some p => rw [updatePlot_ok_resp { ctx with auditOk := false } id req db p hf,
        updatePlot_ok_resp { ctx with auditOk := true } id req db p hf]
  · intro ctx id req db h
    obtain ⟨p, hf⟩ := updatePlot_status_200 ctx id req db h
    exact updatePlot_ok_attempts ctx id req db p hf
  · intro ctx id db
    cases hf : findActivePlot id db with
    | none => rw [deletePlot_notfound { ctx with auditOk := false } id db hf,
        deletePlot_notfound { ctx with auditOk := true } id db hf]
    | some p => rw [deletePlot_ok_resp { ctx with auditOk := false } id db p hf,
        deletePlot_ok_resp { ctx with auditOk := true } id db p hf]
  · intro ctx id db h
    obtain ⟨p, hf⟩ := deletePlot_status_200 ctx id db h
    exact deletePlot_ok_attempts ctx id db p hf
  · intro ctx plotId req db
    by_cases hv : (!(strTruthy req.deceased_full_name)
        || (strTrim (req.deceased_full_name.getD "")).length < 2 : Bool) = true
    · rw [createDeceased_invalid { ctx with auditOk := false } plotId req db hv,
        createDeceased_invalid { ctx with auditOk := true } plotId req db hv]
    · have hv' : (!(strTruthy req.deceased_full_name)
          || (strTrim (req.deceased_full_name.getD "")).length < 2 : Bool) = false := by
        simpa using hv
      rw [createDeceased_ok_resp { ctx with auditOk := false } plotId req db hv',
        createDeceased_ok_resp { ctx with auditOk := true } plotId req db hv']
  · intro ctx plotId req db h
    exact createDeceased_ok_attempts ctx plotId req db
      (createDeceased_status_201 ctx plotId req db h)
  · intro ctx id req db
    cases hf : db.deceased.find? (fun d => d.id == id) with
    | none => rw [updateDeceased_notfound { ctx with auditOk := false } id req db hf,
        updateDeceased_notfound { ctx with auditOk := true } id req db hf]
    | some d0 =>
      rw [updateDeceased_ok_resp { ctx with auditOk := false } id req db d0 hf,
        updateDeceased_ok_resp { ctx with auditOk := true } id req db d0 hf]
  · intro ctx id req db h
    obtain ⟨d0, hf⟩ := updateDeceased_status_200 ctx id req db h
    exact updateDeceased_ok_attempts ctx id req db d0 hf

theorem audit_failure_swallowed_witness :
    (createPlot { auditOk := false } { cemetery_id := some 1, plot_code := some "A-01" } baseDB).1
      = (createPlot { auditOk := true } { cemetery_id := some 1, plot_code := some "A-01" } baseDB).1
    ∧ (createPlot { auditOk := false }
        { cemetery_id := some 1, plot_code := some "A-01" } baseDB).2.auditAttempts
      = baseDB.auditAttempts + 1 := by
  constructor
  · exact audit_failure_swallowed.1 {} { cemetery_id := some 1, plot_code := some "A-01" } baseDB
  · exact audit_failure_swallowed.2.1 { auditOk := false }
      { cemetery_id := some 1, plot_code := some "A-01" } baseDB (by decide)

/-- C6 fails on one point: a soft-deleted plot is not always present in
the `include_deleted` listing. The listing query ends with
`LIMIT PLOTS_PER_CEMETERY_LIMIT`, so in a cemetery already holding the
limit of non-deleted plots (reachable by creating ten, deleting one,
creating one more), a soft-deleted plot whose code sorts last is cut off:
it is in storage but absent from the listing even with the flag set. -/
theorem soft_delete_listing_counterexample :
    deletedPlot11 ∈ elevenPlotsDB.plots
    ∧ deletedPlot11.deleted_at = some 3
    ∧ (listedRows (listPlots {} 1 true elevenPlotsDB)).filter
        (fun q => q.id == deletedPlot11.id) = [] := by
  refine ⟨by decide, rfl, by decide⟩

/-- C6 amended: soft-deleting a plot requires it to exist with no deletion
timestamp (404 otherwise, database unchanged); on success it sets the
deletion timestamp without removing the row or its deceased records, the
plot disappears from the default listing, and it appears exactly once in
the `include_deleted` listing provided the cemetery's total row count does
not exceed the configured cap the listing applies (`LIMIT`), which can
otherwise cut it off. -/
theorem soft_delete_semantics :
    (∀ (ctx : Ctx) (id : Nat) (db : DB), findActivePlot id db = none →
      deletePlot ctx id db = (⟨404, .err "Plot not found or already deleted"⟩, db))
    ∧ (∀ (ctx : Ctx) (id : Nat) (db : DB) (p : Plot), findActivePlot id db = some p →
      (deletePlot ctx id db).1 = ⟨200, .okTrue⟩
      ∧ (deletePlot ctx id db).2.plots.length = db.plots.length
      ∧ (deletePlot ctx id db).2.deceased = db.deceased
      ∧ (∀ q ∈ (deletePlot ctx id db).2.plots, q.id = p.id → q.deleted_at = some db.now)
      ∧ (∃ q, q ∈ (deletePlot ctx id db).2.plots ∧ q.id = p.id)
      ∧ (∀ (ctx2 : Ctx) (q : Plot),
          q ∈ listedRows (listPlots ctx2 p.cemetery_id false (deletePlot ctx id db).2) →
          q.id ≠ p.id)
      ∧ ((db.plots.map Plot.id).Nodup → ∀ (ctx2 : Ctx),
          (db.plots.filter (fun q => q.cemetery_id == p.cemetery_id)).length ≤ ctx2.limit →
          ((listedRows (listPlots ctx2 p.cemetery_id true (deletePlot ctx id db).2)).filter
            (fun q => q.id == p.id)).length = 1)) := by
  refine ⟨fun ctx id db h => deletePlot_notfound ctx id db h, ?_⟩
  intro ctx id db p hf
  have hpred := List.find?_some hf
  simp only [Bool.and_eq_true, beq_iff_eq] at hpred
  have hpid : p.id = id := hpred.1.1
  have hpdel : p.deleted_at = none := by
    have := hpred.1.2
    simpa using this
  have hmem : p ∈ db.plots := List.mem_of_find?_eq_some hf
  have hplots := deletePlot_ok_plots ctx id db p hf
  set f := (fun q : Plot => if q.id == id
    then { q with deleted_at := some db.now, updated_at := db.now } else q) with hfdef
  have hfid : ∀ a : Plot, (f a).id = a.id := by
    intro a
    by_cases ha : a.id = id <;> simp [hfdef, ha]
  have hfcem : ∀ a : Plot, (f a).cemetery_id = a.cemetery_id := by
    intro a
    by_cases ha : a.id = id <;> simp [hfdef, ha]
  have hdel : ∀ q ∈ db.plots.map f, q.id = p.id → q.deleted_at = some db.now := by
    intro q hq hqid
    obtain ⟨q0, hq0, rfl⟩ := List.mem_map.mp hq
    by_cases h0 : q0.id = id
    · simp [hfdef, h0]
    · exfalso
      have hq0id : q0.id = id := by rw [← hpid, ← hfid q0]; exact hqid
      exact h0 hq0id
  refine ⟨deletePlot_ok_resp ctx id db p hf, ?_,
    deletePlot_ok_deceased ctx id db p hf, ?_, ?_, ?_, ?_⟩
  · rw [hplots, List.length_map]
  · intro q hq hqid
    rw [hplots] at hq
    exact hdel q hq hqid
  · refine ⟨f p, ?_, hfid p⟩
    rw [hplots]
    exact List.mem_map_of_mem f hmem
  · intro ctx2 q hq hqid
    simp only [listPlots, listedRows] at hq
    rw [hplots] at hq
    have hq1 : q ∈ List.insertionSort plotCodeLe ((db.plots.map f).filter
        (fun r => r.cemetery_id == p.cemetery_id && (false || r.deleted_at == none))) :=
      List.take_subset _ _ hq
    have hq2 : q ∈ (db.plots.map f).filter
        (fun r => r.cemetery_id == p.cemetery_id && (false || r.deleted_at == none)) :=
      (List.perm_insertionSort _ _).subset hq1
    obtain ⟨hqmem, hqpred⟩ := List.mem_filter.mp hq2
    have hqdel : q.deleted_at = some db.now := hdel q hqmem hqid
    rw [hqdel] at hqpred
    simp at hqpred
  · intro hids ctx2 hcap
    simp only [listPlots, listedRows]
    rw [hplots]
    have hpredC : ∀ r ∈ db.plots.map f,
        (r.cemetery_id == p.cemetery_id && (true || r.deleted_at == none))
          = (r.cemetery_id == p.cemetery_id) := by
      intro r _
      simp
    rw [List.filter_congr hpredC]
    have hCmap : (db.plots.map f).filter (fun r => r.cemetery_id == p.cemetery_id)
        = (db.plots.filter (fun r => r.cemetery_id == p.cemetery_id)).map f :=
      filter_map_of_pred_eq f _ db.plots (fun a => by simp [hfcem a])
    have hClen : ((db.plots.map f).filter
        (fun r => r.cemetery_id == p.cemetery_id)).length ≤ ctx2.limit := by
      rw [hCmap, List.length_map]
      exact hcap
    have hperm : List.Perm (List.insertionSort plotCodeLe ((db.plots.map f).filter
        (fun r => r.cemetery_id == p.cemetery_id)))
        ((db.plots.map f).filter (fun r => r.cemetery_id == p.cemetery_id)) :=
      List.perm_insertionSort _ _
    rw [List.take_of_length_le (by rw [hperm.length_eq]; exact hClen)]
    rw [(hperm.filter _).length_eq]
    have hids' : ((db.plots.map f).map Plot.id).Nodup := by
      rw [List.map_map]
      have hcomp : (Plot.id ∘ f) = Plot.id := funext fun a => hfid a
      rw [hcomp]
      exact hids
    have hsingle : (db.plots.map f).filter (fun q => q.id == (f p).id) = [f p] :=
      filter_key_eq_single Plot.id (db.plots.map f) hids' (f p) (List.mem_map_of_mem f hmem)
    rw [hfid p] at hsingle
    rw [List.filter_filter]
    have hcomm : ∀ a ∈ db.plots.map f,
        ((a.id == p.id) && (a.cemetery_id == p.cemetery_id))
          = ((a.cemetery_id == p.cemetery_id) && (a.id == p.id)) :=
      fun a _ => Bool.and_comm _ _
    rw [List.filter_congr hcomm, ← List.filter_filter, hsingle]
    simp [hfcem p]

theorem soft_delete_semantics_witness :
    (deletePlot {} 1 oneplotDB).1 = ⟨200, .okTrue⟩
    ∧ (deletePlot {} 1 oneplotDB).2.plots.length = oneplotDB.plots.length := by
  obtain ⟨h1, h2, _⟩ := soft_delete_semantics.2 {} 1 oneplotDB basePlot (by decide)
  exact ⟨h1, h2⟩
